import Mathlib

/-!
Verification of the IRI-model retrieval pipeline (`iri_model` package).

The development shallowly embeds the three components of the repository:

* `_downloader.py` — `_run_iri_profile_selenium` (input clamping and the
  best-effort form-driving step sequence) and `run_iri_profile` (the retry
  wrapper with linear backoff);
* `_getdata.py` — `extract_iri_profile_data` (the tolerant profile parser:
  header-time resolution, data-row acceptance, float-array conversion,
  15-column extraction and MKSA unit normalization);
* `getdata.py` — `getdata` (the series aggregator: input-contract guards,
  the per-timestep loop, and the scratch-file cleanup).

External collaborators (the browser session, the remote service, the
coordinate transform, the filesystem) are modelled as oracle parameters.
Machine floats are modelled as rationals; Python's `%` on floats, `int`
truncation, and banker's `round` are embedded explicitly.
-/

namespace IriModel

/-! ## Python primitives -/

/-- Python's `%` on floats with a positive modulus: the result takes the sign
of the divisor, `x % y = x - y*floor(x/y)`. -/
def pyMod (x y : ℚ) : ℚ := x - y * ⌊x / y⌋

/-- Python `int()` truncation restricted to the nonnegative arguments it is
applied to in the source (fractional UT hours). -/
def pyTruncNonneg (q : ℚ) : ℕ := q.floor.toNat

/-- Python's one-argument `round`: round half to even. -/
def pyRoundQ (q : ℚ) : ℤ :=
  if Int.fract q < 1/2 then ⌊q⌋
  else if 1/2 < Int.fract q then ⌊q⌋ + 1
  else if ⌊q⌋ % 2 = 0 then ⌊q⌋ else ⌊q⌋ + 1

theorem pyMod_eq_fract (x : ℚ) : pyMod x 360 = 360 * Int.fract (x / 360) := by
  unfold pyMod Int.fract
  field_simp

theorem pyMod_nonneg (x : ℚ) : 0 ≤ pyMod x 360 := by
  rw [pyMod_eq_fract]
  have := Int.fract_nonneg (x / 360)
  positivity

theorem pyMod_lt (x : ℚ) : pyMod x 360 < 360 := by
  rw [pyMod_eq_fract]
  have h := Int.fract_lt_one (x / 360)
  nlinarith

theorem pyMod_add_period (x : ℚ) : pyMod (x + 360) 360 = pyMod x 360 := by
  unfold pyMod
  have : (x + 360) / 360 = x / 360 + 1 := by ring
  rw [this, Int.floor_add_one]
  push_cast
  ring

theorem pyMod_self_of_bounds (y : ℚ) (h0 : 0 ≤ y) (h1 : y < 360) : pyMod y 360 = y := by
  have hfl : ⌊y / 360⌋ = 0 := by
    apply Int.floor_eq_zero_iff.mpr
    constructor
    · positivity
    · rw [div_lt_one (by norm_num)]
      exact h1
  unfold pyMod
  rw [hfl]
  simp

theorem pyMod_idem (x : ℚ) : pyMod (pyMod x 360) 360 = pyMod x 360 :=
  pyMod_self_of_bounds _ (pyMod_nonneg x) (pyMod_lt x)

/-! ## RemoteModelClient: input clamping (`_run_iri_profile_selenium`, lines 44-47 and 68-72)

The source first applies the coarse "座標補正" block
(`if latitude < -90: latitude = -90` …), then computes the values actually
written into the form fields (`lat_val`, `lon_val`, `min_alt_val`,
`max_alt_val`, `step_alt_val`). -/

/-- The five values `_run_iri_profile_selenium` writes into the remote form. -/
structure SubmittedValues where
  lat : ℚ
  lon : ℚ
  minAlt : ℚ
  maxAlt : ℚ
  stepAlt : ℚ
  deriving DecidableEq, Repr

/-- Field values submitted by `_run_iri_profile_selenium`, composed exactly as
in the source: the coarse correction block followed by the `*_val`
computations. -/
def submittedValues (latitude longitude min_alt max_alt step_alt : ℚ) : SubmittedValues :=
  let latitude := if latitude < -90 then -90 else latitude
  let latitude := if latitude > 90 then 90 else latitude
  let longitude := if longitude < 0 then longitude + 360 else longitude
  let longitude := if longitude > 360 then pyMod longitude 360 else longitude
  { lat := max (-899/10) (min (899/10) latitude)
    lon := pyMod longitude 360
    minAlt := max 0 (min 2000 min_alt)
    maxAlt := max 0 (min 2000 max_alt)
    stepAlt := max 1 (min 500 step_alt) }

/-- The claim's notion of clamping for C2: values inside the stated range are
submitted unchanged; out-of-range values go to the nearest bound. -/
def clampedAsClaimed (lo hi x submitted : ℚ) : Prop :=
  (lo ≤ x ∧ x ≤ hi → submitted = x) ∧ (x < lo → submitted = lo) ∧ (hi < x → submitted = hi)

theorem submittedLon_eq (latitude longitude min_alt max_alt step_alt : ℚ) :
    (submittedValues latitude longitude min_alt max_alt step_alt).lon = pyMod longitude 360 := by
  unfold submittedValues
  dsimp only
  split_ifs with h1 h2 h3
  · rw [pyMod_idem, pyMod_add_period]
  · rw [pyMod_add_period]
  · rw [pyMod_idem]
  · rfl

theorem submittedLat_eq (latitude longitude min_alt max_alt step_alt : ℚ) :
    (submittedValues latitude longitude min_alt max_alt step_alt).lat
      = max (-899/10) (min (899/10) latitude) := by
  unfold submittedValues
  dsimp only
  split_ifs with h1 h2 h2 <;> simp only [max_def, min_def] <;>
    (try split_ifs) <;> first | rfl | linarith

theorem clamp_as_claimed (lo hi x : ℚ) (h : lo ≤ hi) :
    clampedAsClaimed lo hi x (max lo (min hi x)) := by
  refine ⟨fun hx => ?_, fun hx => ?_, fun hx => ?_⟩
  · obtain ⟨hx1, hx2⟩ := hx
    simp only [max_def, min_def]
    split_ifs <;> linarith
  · simp only [max_def, min_def]
    split_ifs <;> linarith
  · simp only [max_def, min_def]
    split_ifs <;> linarith

theorem submittedMinAlt_eq (latitude longitude min_alt max_alt step_alt : ℚ) :
    (submittedValues latitude longitude min_alt max_alt step_alt).minAlt
      = max 0 (min 2000 min_alt) := rfl

theorem submittedMaxAlt_eq (latitude longitude min_alt max_alt step_alt : ℚ) :
    (submittedValues latitude longitude min_alt max_alt step_alt).maxAlt
      = max 0 (min 2000 max_alt) := rfl

theorem submittedStepAlt_eq (latitude longitude min_alt max_alt step_alt : ℚ) :
    (submittedValues latitude longitude min_alt max_alt step_alt).stepAlt
      = max 1 (min 500 step_alt) := rfl

/-- C2 — corrected claim proved.  For every input, the submitted longitude is
`longitude mod 360` and lies in `[0, 360)`; the submitted latitude is the
clamp of the input to `[-89.9, 89.9]` (not `[-90, 90]`); the altitude bounds
are clamped to `[0, 2000]` as claimed; and the step is clamped to `[1, 500]`
(not `(0, 500]`). -/
theorem c2_submitted_values_amended (latitude longitude min_alt max_alt step_alt : ℚ) :
    (submittedValues latitude longitude min_alt max_alt step_alt).lon = pyMod longitude 360
    ∧ 0 ≤ (submittedValues latitude longitude min_alt max_alt step_alt).lon
    ∧ (submittedValues latitude longitude min_alt max_alt step_alt).lon < 360
    ∧ (submittedValues latitude longitude min_alt max_alt step_alt).lat
        = max (-899/10) (min (899/10) latitude)
    ∧ clampedAsClaimed (-899/10) (899/10) latitude
        (submittedValues latitude longitude min_alt max_alt step_alt).lat
    ∧ clampedAsClaimed 0 2000 min_alt
        (submittedValues latitude longitude min_alt max_alt step_alt).minAlt
    ∧ clampedAsClaimed 0 2000 max_alt
        (submittedValues latitude longitude min_alt max_alt step_alt).maxAlt
    ∧ clampedAsClaimed 1 500 step_alt
        (submittedValues latitude longitude min_alt max_alt step_alt).stepAlt := by
  refine ⟨submittedLon_eq .., ?_, ?_, submittedLat_eq .., ?_, ?_, ?_, ?_⟩
  · rw [submittedLon_eq]; exact pyMod_nonneg longitude
  · rw [submittedLon_eq]; exact pyMod_lt longitude
  · rw [submittedLat_eq]
    exact clamp_as_claimed _ _ _ (by norm_num)
  · rw [submittedMinAlt_eq]
    exact clamp_as_claimed _ _ _ (by norm_num)
  · rw [submittedMaxAlt_eq]
    exact clamp_as_claimed _ _ _ (by norm_num)
  · rw [submittedStepAlt_eq]
    exact clamp_as_claimed _ _ _ (by norm_num)

/-- C2 — counterexample to the claim as stated: latitude `90` is inside the
claimed clamp range `[-90, 90]` yet is submitted as `89.9`, and step `1/2` is
inside the claimed range `(0, 500]` yet is submitted as `1`. -/
theorem c2_counterexample :
    (submittedValues 90 10 0 2000 (1/2)).lat = 899/10
    ∧ ((899:ℚ)/10) ≠ 90
    ∧ (submittedValues 90 10 0 2000 (1/2)).stepAlt = 1
    ∧ ((1:ℚ)) ≠ 1/2 := by
  refine ⟨?_, by norm_num, ?_, by norm_num⟩
  · rw [submittedLat_eq]
    norm_num
  · rw [submittedStepAlt_eq]
    norm_num

/-! ## RemoteModelClient: form-driving step sequence (`_run_iri_profile_selenium`)

The attempt body runs, in order: six `safe_fill` calls (lat, lon, start,
stop, step, datetime — no local exception handler, source lines 74-93), the
model-version selection (wrapped in its own `try/except`, lines 96-110), the
time/coordinate-type selection (wrapped in its own `try/except`, lines
113-122), the submit-button monitoring and click (no local handler, lines
133-142), the result-page wait (no local handler, lines 146-148), and the
artifact fetch (its "not found" branch returns 1, lines 163-182).  Any
exception not caught by a local handler reaches the attempt-level
`except Exception` (lines 184-186), which makes the attempt return 1. -/

/-- One logical step of the form-driving sequence. -/
inductive FormStep
  | fillLat | fillLon | fillStart | fillStop | fillStepAlt | fillDatetime
  | selectModel | selectTimeCoord | submitClick | waitResults | fetchResult
  deriving DecidableEq, Repr

/-- The order in which `_run_iri_profile_selenium` performs the steps. -/
def formStepOrder : List FormStep :=
  [.fillLat, .fillLon, .fillStart, .fillStop, .fillStepAlt, .fillDatetime,
   .selectModel, .selectTimeCoord, .submitClick, .waitResults, .fetchResult]

/-- Whether a step's failure is caught by a step-local `try/except` in the
source (and therefore only logged). Only the model-version selection and the
time/coordinate-type selection are locally guarded. -/
def stepGuarded : FormStep → Bool
  | .selectModel => true
  | .selectTimeCoord => true
  | _ => false

/-- Walk the step sequence: a failing guarded step is logged and skipped; a
failing unguarded step terminates the attempt with status 1 (either via the
attempt-level exception handler or, for `fetchResult`, via the explicit
`return 1` branch). If every step succeeds the attempt returns 0. -/
def attemptGo (fails : FormStep → Bool) : List FormStep → Nat
  | [] => 0
  | s :: rest =>
    if fails s then
      if stepGuarded s then attemptGo fails rest else 1
    else attemptGo fails rest

/-- Status returned by one `_run_iri_profile_selenium` attempt, given which
steps fail. -/
def attemptOutcome (fails : FormStep → Bool) : Nat :=
  attemptGo fails formStepOrder

theorem attemptGo_all_guarded (fails : FormStep → Bool)
    (h : ∀ s, fails s = true → stepGuarded s = true) :
    ∀ steps, attemptGo fails steps = 0 := by
  intro steps
  induction steps with
  | nil => rfl
  | cons s rest ih =>
    unfold attemptGo
    by_cases hf : fails s
    · rw [if_pos hf, if_pos (h s hf)]
      exact ih
    · rw [if_neg hf]
      exact ih

/-- C5 — corrected claim proved.  Failures confined to the locally guarded
steps (model-version selection, time/coordinate-frame selection) never abort
the attempt: the attempt still returns 0.  The field-population and
submission steps carry no local handler, so their failures reach the
attempt-level handler. -/
theorem c5_guarded_steps_amended (fails : FormStep → Bool)
    (h : ∀ s, fails s = true → stepGuarded s = true) :
    attemptOutcome fails = 0 :=
  attemptGo_all_guarded fails h formStepOrder

/-- C5 — witness for the amended claim: an attempt in which both the
model-version selection and the time/coordinate selection fail still
returns 0. -/
theorem c5_guarded_steps_amended_witness :
    attemptOutcome (fun s => s = FormStep.selectModel || s = FormStep.selectTimeCoord) = 0 :=
  c5_guarded_steps_amended _ (by intro s hs; cases s <;> simp_all [stepGuarded])

/-- C5 — counterexample to the claim as stated: a failure in the single step
that populates the `lat` field (a field that cannot be populated) makes the
whole attempt terminate with `Failure` (status 1), while an attempt with no
failing step returns 0. So field population is not a step that "may fail
without aborting the whole attempt". -/
theorem c5_counterexample :
    attemptOutcome (fun s => s = FormStep.fillLat) = 1
    ∧ attemptOutcome (fun _ => false) = 0 := by
  constructor <;> rfl

/-! ## RemoteModelClient: retry wrapper (`run_iri_profile`, lines 210-241)

`run_iri_profile` loops `attempt` over `range(max_retries)`, calls
`_run_iri_profile_selenium` with `timeout*2`, returns 0 on the first success,
sleeps `5*(attempt+1)` seconds after each failed non-final attempt, and
returns 1 after exhausting the retries.  The submit collaborator is an
oracle `submit : attempt index → timeout → status`. -/

/-- Observable trace of one `run_iri_profile` call: the final status, the
timeout passed to each `submit` invocation (one entry per attempt, in
order), and the sleep durations in order. -/
structure RunTrace where
  status : Nat
  timeouts : List ℚ
  sleeps : List ℚ
  deriving DecidableEq, Repr

/-- The retry loop body over the remaining attempt indices. -/
def runAttempts (submit : Nat → ℚ → Nat) (timeout : ℚ) (maxRetries : Nat) :
    List Nat → RunTrace
  | [] => ⟨1, [], []⟩
  | a :: rest =>
    if submit a (timeout * 2) = 0 then ⟨0, [timeout * 2], []⟩
    else
      let tail := runAttempts submit timeout maxRetries rest
      ⟨tail.status, timeout * 2 :: tail.timeouts,
        (if a < maxRetries - 1 then [((5 * (a + 1) : ℕ) : ℚ)] else []) ++ tail.sleeps⟩

/-- `run_iri_profile`, as a trace over the external submit collaborator. -/
def run_iri_profile (submit : Nat → ℚ → Nat) (timeout : ℚ) (maxRetries : Nat) : RunTrace :=
  runAttempts submit timeout maxRetries (List.range maxRetries)

/-- C8 — confirmed.  With `max_retries = 3`: if every attempt fails, exactly
3 submit invocations are made, each with per-attempt timeout `2*timeout`,
the sleeps are 5 s then 10 s, and the status is 1; if attempt `k` is the
first to succeed the call returns 0 immediately after `k+1` invocations. -/
theorem c8_retry_wrapper (submit : Nat → ℚ → Nat) (t : ℚ) :
    ((submit 0 (t * 2) ≠ 0 ∧ submit 1 (t * 2) ≠ 0 ∧ submit 2 (t * 2) ≠ 0) →
      run_iri_profile submit t 3 = ⟨1, [t * 2, t * 2, t * 2], [5, 10]⟩)
    ∧ (submit 0 (t * 2) = 0 → run_iri_profile submit t 3 = ⟨0, [t * 2], []⟩)
    ∧ (submit 0 (t * 2) ≠ 0 → submit 1 (t * 2) = 0 →
        run_iri_profile submit t 3 = ⟨0, [t * 2, t * 2], [5]⟩)
    ∧ (submit 0 (t * 2) ≠ 0 → submit 1 (t * 2) ≠ 0 → submit 2 (t * 2) = 0 →
        run_iri_profile submit t 3 = ⟨0, [t * 2, t * 2, t * 2], [5, 10]⟩) := by
  have hrange : List.range 3 = [0, 1, 2] := by decide
  refine ⟨fun ⟨h0, h1, h2⟩ => ?_, fun h0 => ?_, fun h0 h1 => ?_, fun h0 h1 h2 => ?_⟩ <;>
    · unfold run_iri_profile
      rw [hrange]
      unfold runAttempts
      simp_all [runAttempts]
      try norm_num

/-- C8 — witness: an always-failing submit with caller timeout 30 makes three
attempts with per-attempt timeout 60, sleeps 5 s then 10 s, and fails;
a first-attempt success returns 0 after one invocation. -/
theorem c8_retry_wrapper_witness :
    run_iri_profile (fun _ _ => 1) 30 3 = ⟨1, [60, 60, 60], [5, 10]⟩
    ∧ run_iri_profile (fun _ _ => 0) 30 3 = ⟨0, [60], []⟩ := by
  constructor
  · have h := (c8_retry_wrapper (fun _ _ => 1) 30).1 (by norm_num)
    norm_num at h
    exact h
  · have h := (c8_retry_wrapper (fun _ _ => 0) 30).2.1 (by norm_num)
    norm_num at h
    exact h

/-! ## SeriesAggregator (`getdata.py`)

`getdata` is modelled as a trace over oracles: `valid i` is whether the
transformed altitude of timestep `i` is usable (`not np.isnan(alt[i])`, i.e.
at most the 2000 km ceiling), `runRes i` is the status returned by
`run_iri_profile` for timestep `i`, and `parseRes i` is whether
`extract_iri_profile_data` returns a dict (`true`) or `None` (`false`) for
the scratch file written at timestep `i`.  The coordinate array is
represented by its numpy `shape`; faults that would be raised Python
exceptions are `Except.error` values. -/

/-- A Python exception escaping a modelled function. -/
inductive PyFault
  | indexError | typeError | valueError | fileNotFoundError
  | noSuchFileError | notTxtError
  deriving DecidableEq, Repr

/-- Mutable state of the `getdata` per-timestep loop. -/
structure GState where
  requests : List Nat
  fileExists : Bool
  samples : List Nat
  deriving DecidableEq, Repr

/-- How the `getdata` loop ends: a raised fault, the early `return` taken
when `run_iri_profile` fails, or normal completion of all timesteps. -/
inductive GLoopOut
  | fault (f : PyFault)
  | early (st : GState)
  | done (st : GState)
  deriving DecidableEq, Repr

/-- Observable outcome of one `getdata` call that did not raise. -/
structure GRes where
  errored : Bool
  warned : Bool
  requests : List Nat
  removed : Bool
  samples : List Nat
  returnedDict : Bool
  deriving DecidableEq, Repr

/-- The `for i in range(len(times))` loop of `getdata` (lines 68-94):
invalid (NaN-altitude) timesteps are skipped without a query; a
`run_iri_profile` failure triggers the early `return` (the file having been
written only by previously successful queries); a `None` parse makes
`dict_data['altitude']` raise `TypeError`. -/
def gLoop (valid : Nat → Bool) (runRes : Nat → Nat) (parseRes : Nat → Bool) :
    List Nat → GState → GLoopOut
  | [], st => .done st
  | i :: rest, st =>
    if valid i then
      let st' : GState :=
        ⟨st.requests ++ [i], st.fileExists || decide (runRes i = 0), st.samples⟩
      if runRes i ≠ 0 then .early st'
      else if parseRes i then gLoop valid runRes parseRes rest
        ⟨st'.requests, st'.fileExists, st'.samples ++ [i]⟩
      else .fault .typeError
    else gLoop valid runRes parseRes rest st

/-- `getdata` (lines 30-104): the two input-contract guards — note the
source's `if rmlatmlt.ndim != 2 and rmlatmlt.shape[1] != 3`, whose `and`
short-circuits and whose `shape[1]` raises `IndexError` on a 1-D array —
then the column slicing `rmlatmlt[:, 0..2]`, the per-timestep loop, and the
final `os.remove` of the scratch file (which raises `FileNotFoundError` if
no successful query ever wrote it). -/
def getdataRun (timesLen : Nat) (shape : List Nat) (valid : Nat → Bool)
    (runRes : Nat → Nat) (parseRes : Nat → Bool) : Except PyFault GRes :=
  if timesLen ≠ shape.headD 0 then
    .ok ⟨true, false, [], false, [], false⟩
  else
    let contractOk : Except PyFault Bool :=
      if shape.length ≠ 2 then
        match shape[1]? with
        | none => .error .indexError
        | some s1 => .ok (decide (s1 = 3))
      else .ok true
    match contractOk with
    | .error f => .error f
    | .ok false => .ok ⟨true, false, [], false, [], false⟩
    | .ok true =>
      match shape[1]? with
      | none => .error .indexError
      | some cols =>
        if cols < 3 then .error .indexError
        else
          match gLoop valid runRes parseRes (List.range timesLen) ⟨[], false, []⟩ with
          | .fault f => .error f
          | .early st => .ok ⟨false, true, st.requests, false, st.samples, false⟩
          | .done st =>
            if st.fileExists then .ok ⟨false, false, st.requests, true, st.samples, true⟩
            else .error .fileNotFoundError

theorem getdataRun_guards_ok (n : Nat) (valid : Nat → Bool) (runRes : Nat → Nat)
    (parseRes : Nat → Bool) :
    getdataRun n [n, 3] valid runRes parseRes =
      (match gLoop valid runRes parseRes (List.range n) ⟨[], false, []⟩ with
       | .fault f => .error f
       | .early st => .ok ⟨false, true, st.requests, false, st.samples, false⟩
       | .done st =>
         if st.fileExists then .ok ⟨false, false, st.requests, true, st.samples, true⟩
         else .error .fileNotFoundError) := by
  unfold getdataRun
  simp

theorem gLoop_all_ok (valid : Nat → Bool) (runRes : Nat → Nat) (parseRes : Nat → Bool)
    (hrun : ∀ i, runRes i = 0) (hparse : ∀ i, parseRes i = true) :
    ∀ idxs st, ∃ st', gLoop valid runRes parseRes idxs st = .done st'
      ∧ st'.fileExists = (st.fileExists || idxs.any valid) := by
  intro idxs
  induction idxs with
  | nil =>
    intro st
    exact ⟨st, rfl, by simp⟩
  | cons i rest ih =>
    intro st
    by_cases hv : valid i
    · have hrun0 : ¬ (runRes i ≠ 0) := by simp [hrun i]
      obtain ⟨st', hst', hfe⟩ :=
        ih ⟨st.requests ++ [i], st.fileExists || decide (runRes i = 0), st.samples ++ [i]⟩
      refine ⟨st', ?_, ?_⟩
      · unfold gLoop
        rw [if_pos hv, if_neg hrun0, if_pos (hparse i)]
        exact hst'
      · rw [hfe]
        simp [hrun i, hv]
    · obtain ⟨st', hst', hfe⟩ := ih st
      refine ⟨st', ?_, ?_⟩
      · unfold gLoop
        rw [if_neg hv]
        exact hst'
      · rw [hfe]
        simp [List.any_cons, hv]

/-- C1 — corrected claim proved.  When every issued query succeeds and every
parse yields a table, and at least one timestep is valid, `getdata` removes
the scratch file before returning; but when the loop aborts early because a
remote query fails, `getdata` returns with the scratch file NOT removed —
the cleanup is not independent of outcome. -/
theorem c1_scratch_cleanup_amended (n : Nat) (valid : Nat → Bool)
    (runRes : Nat → Nat) (parseRes : Nat → Bool) :
    ((∀ i, runRes i = 0) → (∀ i, parseRes i = true) → (List.range n).any valid = true →
      ∃ r, getdataRun n [n, 3] valid runRes parseRes = .ok r ∧ r.removed = true)
    ∧ (1 ≤ n → valid 0 = true → runRes 0 ≠ 0 →
      ∃ r, getdataRun n [n, 3] valid runRes parseRes = .ok r
        ∧ r.removed = false ∧ r.warned = true) := by
  constructor
  · intro hrun hparse hany
    obtain ⟨st', hst', hfe⟩ := gLoop_all_ok valid runRes parseRes hrun hparse
      (List.range n) ⟨[], false, []⟩
    refine ⟨⟨false, false, st'.requests, true, st'.samples, true⟩, ?_, rfl⟩
    rw [getdataRun_guards_ok, hst']
    dsimp only
    rw [if_pos (show st'.fileExists = true from by rw [hfe]; simp [hany])]
  · intro hn hv hr
    obtain ⟨m, rfl⟩ : ∃ m, n = m + 1 := ⟨n - 1, by omega⟩
    refine ⟨⟨false, true, [0], false, [], false⟩, ?_, rfl, rfl⟩
    rw [getdataRun_guards_ok, List.range_succ_eq_map]
    unfold gLoop
    rw [if_pos hv, if_pos (by simpa using hr)]
    simp [hr]

/-- C1 — witness for the amended claim: with two timesteps whose queries
succeed and parse, the file is removed; with a first query that fails, the
function returns early without removing it. -/
theorem c1_scratch_cleanup_amended_witness :
    (∃ r, getdataRun 2 [2, 3] (fun _ => true) (fun _ => 0) (fun _ => true) = .ok r
      ∧ r.removed = true)
    ∧ (∃ r, getdataRun 2 [2, 3] (fun _ => true) (fun _ => 1) (fun _ => true) = .ok r
      ∧ r.removed = false ∧ r.warned = true) :=
  ⟨(c1_scratch_cleanup_amended 2 (fun _ => true) (fun _ => 0) (fun _ => true)).1
      (fun _ => rfl) (fun _ => rfl) (by decide),
   (c1_scratch_cleanup_amended 2 (fun _ => true) (fun _ => 1) (fun _ => true)).2
      (by norm_num) rfl (by decide)⟩

/-- C1 — counterexample to the claim as stated: a single-timestep aggregation
whose remote query fails takes the aborting-failure path, yet `getdata`
returns with the scratch file not removed (`removed = false`) — the removal
is skipped by the early `return` at line 87, before `os.remove` at
line 101. -/
theorem c1_counterexample :
    getdataRun 1 [1, 3] (fun _ => true) (fun _ => 1) (fun _ => true)
      = .ok ⟨false, true, [0], false, [], false⟩ := by
  rfl

/-- C6 — the shape guard bug, evaluated.  First conjunct: a rank-2 coordinate
array with 4 (≠ 3) columns passes the guard `ndim != 2 and shape[1] != 3`
(because `ndim == 2` short-circuits the `and`), so `getdata` reports no
failure and issues remote requests for both timesteps, contradicting the
claim.  Second conjunct: a rank-1 array makes the guard itself raise
`IndexError` (`shape[1]` on a 1-D array), a fault rather than a reported
failure.  Third conjunct: the length-mismatch half of the claim does hold —
mismatched lengths are reported with zero requests. -/
theorem c6_shape_guard_bug :
    getdataRun 2 [2, 4] (fun _ => true) (fun _ => 0) (fun _ => true)
      = .ok ⟨false, false, [0, 1], true, [0, 1], true⟩
    ∧ getdataRun 2 [2] (fun _ => true) (fun _ => 0) (fun _ => true)
      = .error .indexError
    ∧ getdataRun 2 [3, 3] (fun _ => true) (fun _ => 0) (fun _ => true)
      = .ok ⟨true, false, [], false, [], false⟩ :=
  ⟨rfl, rfl, rfl⟩

/-- C7 — corrected claim proved.  Whenever the first timestep is valid, its
remote query succeeds at the transport level, and the parser returns `None`,
`getdata` raises an uncaught `TypeError` (from subscripting `None` at line
90) — it aborts the batch with a fault and performs no retry, not with a
reported failure. -/
theorem c7_parse_none_amended (n : Nat) (valid : Nat → Bool)
    (runRes : Nat → Nat) (parseRes : Nat → Bool)
    (hn : 1 ≤ n) (hv : valid 0 = true) (hr : runRes 0 = 0) (hp : parseRes 0 = false) :
    getdataRun n [n, 3] valid runRes parseRes = .error .typeError := by
  obtain ⟨m, rfl⟩ : ∃ m, n = m + 1 := ⟨n - 1, by omega⟩
  rw [getdataRun_guards_ok, List.range_succ_eq_map]
  unfold gLoop
  rw [if_pos hv, if_neg (by simp [hr]), if_neg (by simp [hp])]

/-- C7 — witness for the amended claim at a concrete two-timestep input. -/
theorem c7_parse_none_amended_witness :
    getdataRun 2 [2, 3] (fun _ => true) (fun _ => 0) (fun _ => false)
      = .error .typeError :=
  c7_parse_none_amended 2 (fun _ => true) (fun _ => 0) (fun _ => false)
    (by norm_num) rfl rfl rfl

/-- C7 — counterexample to the claim as stated: a single valid timestep whose
query succeeds but whose parse returns `None` ends in a raised `TypeError`,
not in a reported (returned) failure. -/
theorem c7_counterexample :
    getdataRun 1 [1, 3] (fun _ => true) (fun _ => 0) (fun _ => false)
      = .error .typeError := by
  rfl

/-! ## ProfileParser (`_getdata.py`, `extract_iri_profile_data`)

The parser works on the file's text split on newlines.  It is embedded over
`List String` (the line list); tokens are `List Char`.  Python's `float()`
is modelled for signed decimal literals (the forms occurring in IRI output);
`re.search` for the header pattern `(\d{4})/\s*(-?\d+)/\s*([\d\.]+)UT` is
embedded as a leftmost-match scanner (the character classes involved make
the greedy, backtracking-free scan equivalent to the regex). -/

/-- Numeric value of a digit string, as `int()` computes it. -/
def digitsToNat (cs : List Char) : ℕ := cs.foldl (fun n c => n * 10 + (c.toNat - 48)) 0

/-- `str.lstrip('-')`: drop all leading minus signs. -/
def lstripMinus : List Char → List Char
  | '-' :: t => lstripMinus t
  | cs => cs

/-- Python `float()` on a whitespace-free token, for signed decimal literals
`[+-]?digits[.digits]` with at least one digit (the forms produced by the
IRI service); anything else — including a second decimal point — is a
`ValueError`, i.e. `none`. -/
def pyFloatQ (cs : List Char) : Option ℚ :=
  let sgn : ℚ × List Char :=
    match cs with
    | '-' :: t => (-1, t)
    | '+' :: t => (1, t)
    | _ => (1, cs)
  let ip := sgn.2.takeWhile Char.isDigit
  let rest := sgn.2.dropWhile Char.isDigit
  match rest with
  | [] => if ip.isEmpty then none else some (sgn.1 * (digitsToNat ip : ℚ))
  | '.' :: frac =>
    let fd := frac.takeWhile Char.isDigit
    let rest2 := frac.dropWhile Char.isDigit
    if rest2.isEmpty && !(ip.isEmpty && fd.isEmpty) then
      some (sgn.1 * ((digitsToNat ip : ℚ) + (digitsToNat fd : ℚ) / (10 : ℚ) ^ fd.length))
    else none
  | _ => none

/-- Characters matched by the `[\d\.]` class of the header regex. -/
def hourChar (c : Char) : Bool := c.isDigit || c == '.'

/-- The three captured groups of the header regex. -/
structure HeaderTokens where
  yearDigits : List Char
  doyTok : List Char
  hourTok : List Char
  deriving DecidableEq, Repr

/-- Match `(\d{4})/\s*(-?\d+)/\s*([\d\.]+)UT` anchored at the head of `cs`. -/
def matchHeaderAt (cs : List Char) : Option HeaderTokens :=
  match cs with
  | a :: b :: c :: d :: '/' :: rest =>
    if a.isDigit && b.isDigit && c.isDigit && d.isDigit then
      let rest1 := rest.dropWhile Char.isWhitespace
      let sgn : List Char × List Char :=
        match rest1 with
        | '-' :: t => (['-'], t)
        | _ => ([], rest1)
      let ds := sgn.2.takeWhile Char.isDigit
      let rest3 := sgn.2.dropWhile Char.isDigit
      if ds.isEmpty then none
      else
        match rest3 with
        | '/' :: rest4 =>
          let rest5 := rest4.dropWhile Char.isWhitespace
          let hs := rest5.takeWhile hourChar
          let rest6 := rest5.dropWhile hourChar
          if hs.isEmpty then none
          else
            match rest6 with
            | 'U' :: 'T' :: _ => some ⟨[a, b, c, d], sgn.1 ++ ds, hs⟩
            | _ => none
        | _ => none
    else none
  | _ => none

/-- `re.search`: the leftmost position at which the header pattern matches. -/
def scanHeader : List Char → Option HeaderTokens
  | [] => none
  | c :: rest =>
    match matchHeaderAt (c :: rest) with
    | some r => some r
    | none => scanHeader rest

/-! ### Calendar arithmetic (`datetime` + `timedelta`) -/

/-- Gregorian leap year, as `datetime` implements it. -/
def isLeap (y : ℕ) : Bool := (y % 4 == 0 && y % 100 != 0) || y % 400 == 0

def daysInMonth (y m : ℕ) : ℕ :=
  if m = 2 then (if isLeap y then 29 else 28)
  else if m = 4 ∨ m = 6 ∨ m = 9 ∨ m = 11 then 30
  else 31

/-- A proleptic-Gregorian calendar date. -/
structure DateS where
  year : ℕ
  month : ℕ
  day : ℕ
  deriving DecidableEq, Repr

def nextDay (d : DateS) : DateS :=
  if d.day < daysInMonth d.year d.month then ⟨d.year, d.month, d.day + 1⟩
  else if d.month < 12 then ⟨d.year, d.month + 1, 1⟩
  else ⟨d.year + 1, 1, 1⟩

def prevDay (d : DateS) : DateS :=
  if 1 < d.day then ⟨d.year, d.month, d.day - 1⟩
  else if 1 < d.month then ⟨d.year, d.month - 1, daysInMonth d.year (d.month - 1)⟩
  else ⟨d.year - 1, 12, 31⟩

/-- `date + timedelta(days=k)` for a possibly negative day count. -/
def addDaysZ (d : DateS) : ℤ → DateS
  | .ofNat k => nextDay^[k] d
  | .negSucc k => prevDay^[k + 1] d

/-- The resolved observation time (`final_datetime` in the source). -/
structure DateTimeS where
  year : ℕ
  month : ℕ
  day : ℕ
  hour : ℕ
  minute : ℕ
  second : ℕ
  deriving DecidableEq, Repr

/-- Resolve (year, day-of-year, fractional UT hour) exactly as the source
does: `datetime(year,1,1) + timedelta(days=doy-1)`, then
`hours = int(ut)`, `minutes = int((ut-hours)*60)`,
`seconds = int(round(((ut-hours)*60-minutes)*60))`, and the final
`timedelta(hours, minutes, seconds)` addition with automatic carry. -/
def composeDateTime (year doy : ℕ) (ut : ℚ) : DateTimeS :=
  let d0 := addDaysZ ⟨year, 1, 1⟩ ((doy : ℤ) - 1)
  let hours := pyTruncNonneg ut
  let minutesF := (ut - hours) * 60
  let minutes := pyTruncNonneg minutesF
  let secondsF := (minutesF - minutes) * 60
  let seconds := (pyRoundQ secondsF).toNat
  let total := hours * 3600 + minutes * 60 + seconds
  let d1 := addDaysZ d0 ((total / 86400 : ℕ) : ℤ)
  ⟨d1.year, d1.month, d1.day, (total % 86400) / 3600, ((total % 86400) % 3600) / 60,
    total % 60⟩

/-- The numeric step applied to the three captured header groups:
`int(year)`, `int(doy.lstrip('-').strip())`, `float(ut_hour)` — the last of
which raises `ValueError` on a malformed `[\d\.]+` token. -/
def headerTokensResolve (ys ds hs : List Char) : Except PyFault (Option DateTimeS) :=
  match pyFloatQ hs with
  | none => .error .valueError
  | some ut => .ok (some (composeDateTime (digitsToNat ys) (digitsToNat (lstripMinus ds)) ut))

/-- Header-time resolution over the whole line list: the header is sought in
`lines[3]` only; fewer than 4 lines, or no regex match, yields `time_str is
None` and hence the parser's soft `None` return. -/
def resolveHeaderTime (lines : List String) : Except PyFault (Option DateTimeS) :=
  if 4 ≤ lines.length then
    match scanHeader ((lines.getD 3 "").toList) with
    | none => .ok none
    | some tk => headerTokensResolve tk.yearDigits tk.doyTok tk.hourTok
  else .ok none

/-! ### Data-row scan and table construction -/

/-- Whitespace tokenization (`re.sub(r'\s+',' ',line.strip()).split()`). -/
def splitWsAux : List Char → List Char → List (List Char)
  | [], acc => if acc.isEmpty then [] else [acc.reverse]
  | c :: rest, acc =>
    if c.isWhitespace then
      if acc.isEmpty then splitWsAux rest [] else acc.reverse :: splitWsAux rest []
    else splitWsAux rest (c :: acc)

def lineTokens (s : String) : List (List Char) := splitWsAux s.toList []

/-- Row acceptance (source lines 102-117): at least 10 tokens and a first
token that `float()` accepts. -/
def isDataRow (toks : List (List Char)) : Bool :=
  10 ≤ toks.length && (pyFloatQ (toks.headD [])).isSome

/-- The accepted data rows, in file order, each kept as its full token
list (the source appends every `parts[i]`). -/
def acceptedRows (lines : List String) : List (List (List Char)) :=
  (lines.map lineTokens).filter isDataRow

/-- One row converted by `np.array(..., dtype=float)`. -/
def parseRow (r : List (List Char)) : Option (List ℚ) := r.mapM pyFloatQ

/-- `np.array(extracted_data, dtype=float)`: `ValueError` on ragged rows
(inhomogeneous shape) or on a token `float()` rejects. -/
def npFloatArray (rows : List (List (List Char))) : Except PyFault (List (List ℚ)) :=
  if rows.all (fun r => r.length = (rows.headD []).length) then
    match rows.mapM parseRow with
    | some arr => .ok arr
    | none => .error .valueError
  else .error .valueError

/-- The parsed, unit-normalized profile table (`dict_return`). -/
structure IriTable where
  timeRes : DateTimeS
  altitude : List ℚ
  Ne : List ℚ
  NeRatio : List ℚ
  Tn : List ℚ
  Ti : List ℚ
  Te : List ℚ
  Oplus : List ℚ
  Nplus : List ℚ
  Hplus : List ℚ
  Heplus : List ℚ
  O2plus : List ℚ
  NOplus : List ℚ
  Clust : List ℚ
  TEC : List ℚ
  tpct : List ℚ
  deriving DecidableEq, Repr

/-- Column `i` of the converted array (`extracted_data[:, i]`). -/
def colAt (arr : List (List ℚ)) (i : ℕ) : List ℚ := arr.map (fun r => r.getD i 0)

/-- The 15-column extraction and MKSA normalization (source lines 139-171).
`extracted_data[:, i]` raises `IndexError` when the array has fewer than 15
columns. -/
def buildTable (ts : DateTimeS) (arr : List (List ℚ)) : Except PyFault (Option IriTable) :=
  if (arr.headD []).length < 15 then .error .indexError
  else .ok (some
    { timeRes := ts
      altitude := (colAt arr 0).map (· * 1000)
      Ne := (colAt arr 1).map (· * 1000000)
      NeRatio := colAt arr 2
      Tn := colAt arr 3
      Ti := colAt arr 4
      Te := colAt arr 5
      Oplus := (colAt arr 6).map (· / 10)
      Nplus := (colAt arr 7).map (· / 10)
      Hplus := (colAt arr 8).map (· / 10)
      Heplus := (colAt arr 9).map (· / 10)
      O2plus := (colAt arr 10).map (· / 10)
      NOplus := (colAt arr 11).map (· / 10)
      Clust := (colAt arr 12).map (· * 10000000000000000)
      TEC := (colAt arr 13).map (· * 10000000000000000)
      tpct := (colAt arr 14).map (· * 10000000000000000) })

/-- `extract_iri_profile_data` on the file content (after the filepath
checks): header-time resolution, row scan, float-array conversion, column
extraction. `.ok none` is the soft `None` return; `.error` is a raised
exception. -/
def extractFromContent (lines : List String) : Except PyFault (Option IriTable) :=
  match resolveHeaderTime lines with
  | .error f => .error f
  | .ok none => .ok none
  | .ok (some ts) =>
    match acceptedRows lines with
    | [] => .ok none
    | r0 :: rs =>
      match npFloatArray (r0 :: rs) with
      | .error f => .error f
      | .ok arr => buildTable ts arr

/-- `extract_iri_profile_data` including the filepath preconditions (source
lines 30-34): a missing file and a non-`txt` path each raise `ValueError`.
`fileFound` stands for `os.path.exists(filepath)`; `lines` is the content of
the file split on newlines. -/
def extract_iri_profile_data (fileFound : Bool) (filepath : String) (lines : List String) :
    Except PyFault (Option IriTable) :=
  if !fileFound then .error .noSuchFileError
  else if !(filepath.toList.reverse.take 3 == ['t', 'x', 't']) then .error .notTxtError
  else extractFromContent lines

/-! ### General facts about the conversion pipeline -/

theorem mapM_none_of_mem {α β : Type} (f : α → Option β) {l : List α} {x : α}
    (hx : x ∈ l) (hf : f x = none) : l.mapM f = none := by
  induction l with
  | nil => cases hx
  | cons a t ih =>
    rw [List.mapM_cons]
    rcases List.mem_cons.mp hx with h | h
    · subst h
      rw [hf]
      rfl
    · cases hfa : f a
      · rfl
      · rw [ih h]
        rfl

theorem mapM_some_forall2 {α β : Type} (f : α → Option β) :
    ∀ {l : List α} {l' : List β}, l.mapM f = some l' →
      List.Forall₂ (fun a b => f a = some b) l l' := by
  intro l
  induction l with
  | nil =>
    intro l' h
    simp only [List.mapM_nil, pure, Option.some.injEq] at h
    subst h
    exact .nil
  | cons a t ih =>
    intro l' h
    rw [List.mapM_cons] at h
    cases hfa : f a with
    | none => rw [hfa] at h; simp at h
    | some b =>
      rw [hfa] at h
      cases hmt : t.mapM f with
      | none => rw [hmt] at h; simp at h
      | some bs =>
        rw [hmt] at h
        simp only [bind, Option.bind, pure, Option.some.injEq] at h
        subst h
        exact .cons hfa (ih hmt)

/-- Value the aggregate pipeline reads off a row's first token (the raw
altitude in km); `0` stands in for the impossible unparsable case. -/
def rowAltVal (r : List (List Char)) : ℚ := (pyFloatQ (r.headD [])).getD 0

/-- The accepted rows' raw altitude values, in file order. -/
def acceptedAltVals (lines : List String) : List ℚ := (acceptedRows lines).map rowAltVal

theorem parseRow_length {r : List (List Char)} {pr : List ℚ} (h : parseRow r = some pr) :
    pr.length = r.length :=
  (mapM_some_forall2 _ h).length_eq.symm

theorem parseRow_head {r : List (List Char)} {pr : List ℚ} (h : parseRow r = some pr) :
    pr.getD 0 0 = rowAltVal r := by
  cases mapM_some_forall2 _ h with
  | nil => rfl
  | @cons a b t bs hfa _ =>
    simp [rowAltVal, hfa]

theorem forall2_col0 {rows : List (List (List Char))} {arr : List (List ℚ)}
    (h : List.Forall₂ (fun r pr => parseRow r = some pr) rows arr) :
    arr.map (fun r => r.getD 0 0) = rows.map rowAltVal := by
  induction h with
  | nil => rfl
  | cons hfa _ ih =>
    simp only [List.map_cons, parseRow_head hfa, ih]

theorem npFloatArray_ok {rows : List (List (List Char))} {arr : List (List ℚ)}
    (h : npFloatArray rows = .ok arr) :
    rows.mapM parseRow = some arr := by
  unfold npFloatArray at h
  split at h
  · split at h
    · rename_i arr' harr'
      cases h
      exact harr'
    · cases h
  · cases h

theorem npFloatArray_col0 {rows : List (List (List Char))} {arr : List (List ℚ)}
    (h : npFloatArray rows = .ok arr) :
    colAt arr 0 = rows.map rowAltVal :=
  forall2_col0 (mapM_some_forall2 _ (npFloatArray_ok h))

theorem extract_ok_inv {lines : List String} {t : IriTable}
    (h : extractFromContent lines = .ok (some t)) :
    t.altitude = (acceptedAltVals lines).map (· * 1000) := by
  unfold extractFromContent at h
  split at h
  · cases h
  · cases h
  · rename_i ts _
    split at h
    · cases h
    · rename_i r0 rs hrows
      split at h
      · cases h
      · rename_i arr harr
        unfold buildTable at h
        split at h
        · cases h
        · simp only [Except.ok.injEq, Option.some.injEq] at h
          subst h
          show (colAt arr 0).map (· * 1000) = _
          rw [npFloatArray_col0 harr, ← hrows]
          rfl

/-- C3 — corrected claim proved.  The altitude column of any table returned
by `extract_iri_profile_data` is exactly the accepted rows' first-token
values (km) scaled to metres, in file order — the parser performs no
monotonicity check, so the column is strictly increasing precisely when the
input's accepted data rows already are (second conjunct). -/
theorem c3_altitude_order_amended (lines : List String) :
    (∀ t, extractFromContent lines = .ok (some t) →
      t.altitude = (acceptedAltVals lines).map (· * 1000))
    ∧ (∀ t, extractFromContent lines = .ok (some t) →
      (List.Chain' (· < ·) (acceptedAltVals lines) ↔ List.Chain' (· < ·) t.altitude)) := by
  constructor
  · intro t h
    exact extract_ok_inv h
  · intro t h
    rw [extract_ok_inv h, List.chain'_map]
    constructor
    · exact fun hc => hc.imp fun a b hab => by
        have : (0:ℚ) < 1000 := by norm_num
        exact mul_lt_mul_of_pos_right hab this
    · exact fun hc => hc.imp fun a b hab => by
        have h1000 : (0:ℚ) < 1000 := by norm_num
        exact lt_of_mul_lt_mul_right hab (le_of_lt h1000)

/-! ### Concrete fixtures

Batteries marks the `Rat` field operations `@[irreducible]` to keep `simp`
from unfolding them; concrete evaluation of the embedded parser needs them
reducible again (this changes nothing about their meaning, and every proof
still goes through the kernel). -/

deriving instance DecidableEq for Except

set_option allowUnsafeReducibility true in
attribute [semireducible] Rat.mul Rat.add Rat.sub Rat.inv

/-- A fixture whose two accepted data rows carry the same altitude value. -/
def c3DupLines : List String :=
  ["", "", "", "2012/ -42/10.0UT",
   "5 1 2 3 4 5 6 7 8 9 1 2 3 4 5",
   "5 1 2 3 4 5 6 7 8 9 1 2 3 4 5"]

/-- C3 — counterexample to the claim as stated: an input whose accepted data
rows carry duplicate altitudes is returned as an ordinary table whose
altitude column `[5000, 5000]` (metres) is not strictly increasing — no
anomaly is surfaced. -/
theorem c3_counterexample :
    (extractFromContent c3DupLines).map (Option.map IriTable.altitude)
      = .ok (some [5000, 5000])
    ∧ ¬ List.Chain' (· < ·) ([5000, 5000] : List ℚ) := by
  constructor
  · decide
  · simp [List.chain'_cons]

/-- C4 — corrected claim proved.  With the file present: fewer than 4 lines
in a `txt`-addressed file yields the soft `None` return; but a filepath not
ending in `txt` makes `extract_iri_profile_data` raise `ValueError` instead
of returning `None`. -/
theorem c4_fail_soft_amended :
    (∀ (p : String) (lines : List String), p.toList.reverse.take 3 = ['t', 'x', 't'] →
      lines.length < 4 → extract_iri_profile_data true p lines = .ok none)
    ∧ (∀ (p : String) (lines : List String), ¬ p.toList.reverse.take 3 = ['t', 'x', 't'] →
      extract_iri_profile_data true p lines = .error .notTxtError) := by
  constructor
  · intro p lines hp hlen
    unfold extract_iri_profile_data
    rw [if_neg (by simp), if_neg (by simp; exact hp)]
    unfold extractFromContent
    have hres : resolveHeaderTime lines = .ok none := by
      unfold resolveHeaderTime
      rw [if_neg (by omega)]
    rw [hres]
  · intro p lines hp
    unfold extract_iri_profile_data
    rw [if_neg (by simp), if_pos (by simp; exact hp)]

/-- C4 — witness: a 1-line `txt` file parses to `None`; a `csv` path raises. -/
theorem c4_fail_soft_amended_witness :
    extract_iri_profile_data true "out.txt" ["only line"] = .ok none
    ∧ extract_iri_profile_data true "data.csv" ["a", "b", "c", "d"] = .error .notTxtError :=
  ⟨c4_fail_soft_amended.1 "out.txt" ["only line"] (by decide) (by decide),
   c4_fail_soft_amended.2 "data.csv" ["a", "b", "c", "d"] (by decide)⟩

/-- C4 — counterexample to the claim as stated: an input not addressed to a
text artifact (a `csv` path) raises `ValueError` (`notTxtError`) instead of
failing soft with `None`. -/
theorem c4_counterexample :
    extract_iri_profile_data true "data.csv" ["l1", "l2", "l3", "l4", "l5"]
      = .error .notTxtError := by
  decide

/-- A raw-result fixture carrying the spec's example header, embedded in the
service's surrounding report text, at the fixed line position 3. -/
def c9HeaderLines : List String :=
  ["", "", "", "yyyy/mmdd(-ddd)/hh.h):2012/ -42/10.0UT"]

set_option maxRecDepth 40000 in
/-- C9 — confirmed.  The sign of the day-of-year token is discarded for every
token (first conjunct); the spec's example header `2012/ -42/10.0UT` resolves
to 2012-02-11 (day-of-year 42 of 2012) at 10:00:00 UT; the date is January 1
plus `doy - 1` days; and the seconds component of the fractional hour is
rounded (0.9 s rounds to 1 s). -/
theorem c9_header_time_resolution :
    (∀ ys ds hs, headerTokensResolve ys ('-' :: ds) hs = headerTokensResolve ys ds hs)
    ∧ resolveHeaderTime c9HeaderLines = .ok (some ⟨2012, 2, 11, 10, 0, 0⟩)
    ∧ addDaysZ ⟨2012, 1, 1⟩ ((42 : ℤ) - 1) = ⟨2012, 2, 11⟩
    ∧ composeDateTime 2012 42 (10 + 9 / 36000) = ⟨2012, 2, 11, 10, 0, 1⟩ := by
  refine ⟨fun ys ds hs => ?_, by decide, by decide, by decide⟩
  rfl

/-- C10 — confirmed.  On any input with a resolvable time header and a
non-empty set of accepted data rows, the function raises (returns a fault)
whenever some accepted row has an unparsable token after the first, or the
accepted rows have differing token counts, or all accepted rows have fewer
than 15 tokens. -/
theorem c10_partial_inputs (lines : List String) (ts : DateTimeS)
    (hres : resolveHeaderTime lines = .ok (some ts))
    (hne : acceptedRows lines ≠ [])
    (hbad : (∃ r ∈ acceptedRows lines, ∃ tok ∈ r.tail, pyFloatQ tok = none)
      ∨ (∃ r ∈ acceptedRows lines, ∃ s ∈ acceptedRows lines, r.length ≠ s.length)
      ∨ (∀ r ∈ acceptedRows lines, r.length < 15)) :
    ∃ f, extractFromContent lines = .error f := by
  unfold extractFromContent
  rw [hres]
  cases hrows : acceptedRows lines with
  | nil => exact absurd hrows hne
  | cons r0 rs =>
    dsimp only
    rw [hrows] at hbad
    by_cases hall : ((r0 :: rs).all (fun r => r.length = ((r0 :: rs).headD []).length)) = true
    · have hlen : ∀ r ∈ r0 :: rs, r.length = r0.length := by
        intro r hr
        have := List.all_eq_true.mp hall r hr
        simpa using this
      rcases hbad with ⟨r, hr, tok, htok, hnone⟩ | ⟨r, hr, s, hs, hne'⟩ | hshort
      · have hm : (r0 :: rs).mapM parseRow = none :=
          mapM_none_of_mem _ hr (mapM_none_of_mem _ (List.mem_of_mem_tail htok) hnone)
        have hnp : npFloatArray (r0 :: rs) = .error .valueError := by
          unfold npFloatArray
          rw [if_pos hall, hm]
        exact ⟨.valueError, by rw [hnp]⟩
      · exact absurd ((hlen r hr).trans (hlen s hs).symm) hne'
      · cases hm : (r0 :: rs).mapM parseRow with
        | none =>
          have hnp : npFloatArray (r0 :: rs) = .error .valueError := by
            unfold npFloatArray
            rw [if_pos hall, hm]
          exact ⟨.valueError, by rw [hnp]⟩
        | some arr =>
          have hnp : npFloatArray (r0 :: rs) = .ok arr := by
            unfold npFloatArray
            rw [if_pos hall, hm]
          cases mapM_some_forall2 _ hm with
          | @cons _ pr0 _ prs hp0 _ =>
            have hlt : ((pr0 :: prs).headD []).length < 15 := by
              show pr0.length < 15
              rw [parseRow_length hp0]
              exact hshort r0 (List.mem_cons_self r0 rs)
            have hbt : buildTable ts (pr0 :: prs) = .error .indexError := by
              unfold buildTable
              rw [if_pos hlt]
            exact ⟨.indexError, by rw [hnp]; exact hbt⟩
    · have hnp : npFloatArray (r0 :: rs) = .error .valueError := by
        unfold npFloatArray
        rw [if_neg hall]
      exact ⟨.valueError, by rw [hnp]⟩

/-- A fixture whose single accepted data row has only 10 tokens: the
15-column extraction must fail. -/
def c10ShortLines : List String :=
  ["", "", "", "2012/ -42/10.0UT", "7 1 2 3 4 5 6 7 8 9"]

set_option maxRecDepth 40000 in
/-- C10 — witness at a concrete input: a valid header and one accepted
10-token row end in a raised fault. -/
theorem c10_partial_inputs_witness :
    ∃ f, extractFromContent c10ShortLines = .error f :=
  c10_partial_inputs c10ShortLines ⟨2012, 2, 11, 10, 0, 0⟩ (by decide) (by decide)
    (Or.inr (Or.inr (by decide)))

end IriModel
